import Mathlib

/-!
Verification of the query-execution and correctness-assurance pipeline of the
talk-to-data backend: the session-pool query executor
(`backend/services/query_executor.py`), the SQL safety validator
(`backend/agents/llm_agent.py`), and the one-shot correction loop
(`backend/main.py`, route `execute_query`).

Python dictionaries are modelled as insertion-ordered association lists,
wall-clock timestamps and durations as natural numbers (seconds for the
access records, milliseconds for elapsed query time), pandas DataFrames as a
concrete columnar record, the DuckDB engine as an oracle function returning
`Except` (a Python exception is `Except.error`), and the Gemini LLM calls as
oracle string functions.  Python exceptions raised by `_clean_sql` and
propagated out of the route body are modelled with `Except`.
-/

set_option autoImplicit false

namespace TalkToData

/-- Keys of a Python-dict-like association list, in insertion order
(`d.keys()`). -/
def keysOf {κ α : Type} (l : List (κ × α)) : List κ := l.map Prod.fst

/-- Dictionary lookup: the binding of `k`, mirroring `d[k]` / `k in d`
(`none` when the key is absent). -/
def lookupKey {κ α : Type} [DecidableEq κ] : List (κ × α) → κ → Option α
  | [], _ => none
  | (k2, v2) :: rest, k => if k2 = k then some v2 else lookupKey rest k

/-- Dictionary write `d[k] = v`: replace the binding in place when the key is
present, else append it, preserving Python dict insertion order. -/
def setKey {κ α : Type} [DecidableEq κ] : List (κ × α) → κ → α → List (κ × α)
  | [], k, v => [(k, v)]
  | (k2, v2) :: rest, k, v =>
    if k2 = k then (k, v) :: rest else (k2, v2) :: setKey rest k v

/-- Dictionary deletion `del d[k]` (a no-op when the key is absent, matching
the guarded deletes in `close_session`). -/
def eraseKey {κ α : Type} [DecidableEq κ] (l : List (κ × α)) (k : κ) :
    List (κ × α) :=
  l.filter (fun p => decide (p.1 ≠ k))

/-- First non-`none` image under `f`, in list order: a Python
`for`-loop that returns on the first match. -/
def firstSomeMap {α β : Type} (f : α → Option β) : List α → Option β
  | [] => none
  | a :: l =>
    match f a with
    | some b => some b
    | none => firstSomeMap f l

/-- A columnar dataset (a pandas DataFrame): ordered column names and rows of
cell values. -/
structure Df where
  cols : List String
  rows : List (List String)
deriving DecidableEq, Repr

/-- An Execution Context: the named tables registered in one per-session
in-memory DuckDB connection (`conn.register(table_name, df)` bindings,
last-write-wins per name). -/
abbrev Ctx := List (String × Df)

/-- The DuckDB execution engine, as an oracle: given the connection's
registered tables and a SQL string, `conn.execute(query).fetchdf()` either
returns a result DataFrame or raises (`Except.error` carries `str(e)`). -/
abbrev Engine := Ctx → String → Except String Df

namespace QueryExecutor

/-- The mutable state of the `QueryExecutor` session pool:
`self.connections`, `self.schema_cache`, `self.last_access`, and the two
configuration constants `self.max_sessions` (10) and `self.session_timeout`
(3600 seconds). -/
structure ExecState where
  connections : List (Nat × Ctx)
  schema_cache : List (Nat × List (String × String))
  last_access : List (Nat × Nat)
  max_sessions : Nat
  session_timeout : Nat
deriving DecidableEq, Repr

/-- The pool as constructed by `QueryExecutor.__init__`. -/
def initState : ExecState :=
  { connections := [], schema_cache := [], last_access := []
    max_sessions := 10, session_timeout := 3600 }

/-- The outcome tuple `(success, result_df, error_message, execution_time_ms)`
returned by `QueryExecutor.execute_query`. -/
structure ExecOutcome where
  success : Bool
  result : Option Df
  error : Option String
  time_ms : Nat
deriving DecidableEq, Repr

/-- `QueryExecutor.close_session`: close and drop the session's connection,
cached schema and access record; total, and a no-op for absent handles. -/
def close_session (st : ExecState) (sid : Nat) : ExecState :=
  { st with
    connections := eraseKey st.connections sid
    schema_cache := eraseKey st.schema_cache sid
    last_access := eraseKey st.last_access sid }

/-- `QueryExecutor._cleanup_expired_sessions`: collect the session ids whose
last access lies more than `session_timeout` seconds in the past, then close
each of them. -/
def _cleanup_expired_sessions (now : Nat) (st : ExecState) : ExecState :=
  let expired :=
    (st.last_access.filter (fun p => decide (st.session_timeout < now - p.2))).map Prod.fst
  expired.foldl close_session st

/-- First key-value pair with minimal value, earliest first on ties:
`min(d.keys(), key=lambda k: d[k])` over an insertion-ordered dict. -/
def minEntry : List (Nat × Nat) → Option (Nat × Nat)
  | [] => none
  | (k, v) :: rest =>
    match minEntry rest with
    | none => some (k, v)
    | some (k2, v2) => if v ≤ v2 then some (k, v) else some (k2, v2)

/-- The session-limit check of `register_dataframe`: when the handle is new
and the pool is at capacity, close the least-recently-used session
(`min(self.last_access.keys(), key=lambda k: self.last_access[k])`).
(When the pool is at capacity with an empty `last_access` map the Python
`min` would raise; that state is unreachable because both maps always hold
the same keys, and the model leaves the pool unchanged there.) -/
def evictIfNeeded (st : ExecState) (sid : Nat) : ExecState :=
  if sid ∉ keysOf st.connections ∧ st.max_sessions ≤ st.connections.length then
    match minEntry st.last_access with
    | some kv => close_session st kv.1
    | none => st
  else st

/-- The tail of `register_dataframe`: create the connection if absent,
register the table into it (replacing any prior binding of the same name —
`conn.register(table_name, df)`), and stamp the access record. -/
def regFinal (st : ExecState) (now sid : Nat) (df : Df)
    (table_name : String) : ExecState :=
  { st with
    connections :=
      setKey st.connections sid
        (setKey ((lookupKey st.connections sid).getD []) table_name df)
    last_access := setKey st.last_access sid now }

/-- `QueryExecutor.register_dataframe`: run idle cleanup, apply the
session-limit eviction, then create/update the session's connection and
access record. -/
def register_dataframe (now : Nat) (st : ExecState) (sid : Nat) (df : Df)
    (table_name : String) : ExecState :=
  regFinal (evictIfNeeded (_cleanup_expired_sessions now st) sid) now sid df
    table_name

/-- `QueryExecutor.execute_query`: fail fast with `"No data registered for
this session"` and zero elapsed time when the handle has no connection;
otherwise stamp the access record, run the engine and convert any engine
exception into a failure outcome.  `dur` is the wall-clock duration in
milliseconds of the engine attempt (the region timed between `start_time` and
the elapsed-time computation).  The third component counts engine
invocations. -/
def execute_query (engine : Engine) (now dur : Nat) (st : ExecState)
    (sid : Nat) (query : String) : ExecOutcome × ExecState × Nat :=
  match lookupKey st.connections sid with
  | none =>
    (⟨false, none, some "No data registered for this session", 0⟩, st, 0)
  | some ctx =>
    let st1 := { st with last_access := setKey st.last_access sid now }
    match engine ctx query with
    | Except.ok df => (⟨true, some df, none, dur⟩, st1, 1)
    | Except.error e => (⟨false, none, some e, dur⟩, st1, 1)

end QueryExecutor

namespace Sqlparse

/-!
Model of the fragment of the `sqlparse` 0.4 library that
`LLMAgent.validate_sql_query` relies on: the regex lexer's token
classification (`sqlparse/keywords.py`), the statement splitter
(`sqlparse/engine/statement_splitter.py`) and `Statement.get_type`
(`sqlparse/sql.py`).  `statement.flatten()` yields exactly the lexer's leaf
tokens, so a parsed statement is modelled as its token list; the grouping
layer is not needed except inside `get_type`'s CTE branch, where the
top-level walk over grouped tokens is modelled as a scan at parenthesis
depth zero.  The lexer model covers whitespace, newlines, `--` line
comments, words (with sqlparse's keyword tables and its rule that a word
immediately followed by `(` lexes as a Name except for CASE/IN/VALUES/
USING/FROM/AS), integer literals, single- and double-quoted literals,
punctuation and operator characters; string-escape forms, dollar quoting,
multiline comments and numeric edge forms of the full library are outside
the fragment exercised here.
-/

/-- sqlparse token types (`sqlparse.tokens`): `Keyword` is the plain keyword
type; `DML`, `DDL` and `CTE` are its distinct subtypes `Keyword.DML`,
`Keyword.DDL`, `Keyword.CTE`.  The identity test `ttype is Keyword` used by
the validator matches only the `Keyword` alternative. -/
inductive TType where
  | Keyword
  | DML
  | DDL
  | CTE
  | Name
  | Whitespace
  | Newline
  | Comment
  | Number
  | StringLit
  | StringSym
  | Punct
  | Wildcard
  | Operator
  | ErrorTok
deriving DecidableEq, Repr

/-- A lexer token: its type and its source text (`token.value`). -/
structure Tok where
  ttype : TType
  value : String
deriving DecidableEq, Repr

/-- Uppercase a string character-wise (`str.upper()` /
`token.normalized` for keywords), over the character list to stay
kernel-computable. -/
def strUpper (s : String) : String := String.mk (s.data.map Char.toUpper)

/-- `list.startswith`-style prefix test on character lists. -/
def isPrefixList : List Char → List Char → Bool
  | [], _ => true
  | _ :: _, [] => false
  | p :: ps, c :: cs => p == c && isPrefixList ps cs

/-- Substring scan, fuelled by the haystack length: Python's
`pat in s` for a nonempty pattern. -/
def containsSubAux : Nat → List Char → List Char → Bool
  | 0, hay, pat => isPrefixList pat hay
  | fuel + 1, hay, pat =>
    if isPrefixList pat hay then true
    else
      match hay with
      | [] => false
      | _ :: t => containsSubAux fuel t pat

/-- Python's substring containment `pat in hay`. -/
def listContainsSub (hay pat : List Char) : Bool :=
  containsSubAux hay.length hay pat

/-- The keywords classified as `Keyword.DML` by `sqlparse.keywords`. -/
def dmlKeywords : List String :=
  ["SELECT", "INSERT", "DELETE", "UPDATE", "UPSERT", "REPLACE", "MERGE"]

/-- The keywords classified as `Keyword.DDL` by `sqlparse.keywords`. -/
def ddlKeywords : List String := ["DROP", "CREATE", "ALTER"]

/-- Plain `Keyword`-classified words of `sqlparse.keywords` relevant to the
statements handled here; a word in no keyword table lexes as `Name`. -/
def plainKeywords : List String :=
  ["FROM", "WHERE", "AS", "IN", "AND", "OR", "NOT", "ON", "JOIN", "INNER",
   "OUTER", "LEFT", "RIGHT", "FULL", "CROSS", "NATURAL", "BY", "GROUP",
   "ORDER", "HAVING", "LIMIT", "OFFSET", "DISTINCT", "ALL", "UNION", "CASE",
   "WHEN", "THEN", "ELSE", "END", "IS", "NULL", "LIKE", "BETWEEN", "EXISTS",
   "SET", "TABLE", "INTO", "VALUES", "USING", "ASC", "DESC", "TRUNCATE",
   "CALL", "EXECUTE", "BEGIN", "IF", "FOR", "WHILE", "LOOP"]

/-- Token type of a bare word under sqlparse's keyword tables
(`PROCESS_AS_KEYWORD`: look the uppercased word up in `KEYWORDS_COMMON`
then `KEYWORDS`, falling back to `Name`). -/
def keywordKind (w : String) : TType :=
  if w ∈ dmlKeywords then TType.DML
  else if w ∈ ddlKeywords then TType.DDL
  else if w = "WITH" then TType.CTE
  else if w ∈ plainKeywords then TType.Keyword
  else TType.Name

/-- Word constituent characters (`\w` plus `$`/`#` continuation chars of
sqlparse's word regex). -/
def wordChar (c : Char) : Bool := c.isAlphanum || c == '_' || c == '$' || c == '#'

/-- The six words sqlparse always lexes as `Keyword` even when directly
followed by `(` (its regex rule preceding the function-name rule). -/
def parenExemptKeywords : List String :=
  ["CASE", "IN", "VALUES", "USING", "FROM", "AS"]

/-- Classify one completed word given the rest of the input: sqlparse's
function-name rule turns a word immediately followed by `(` into a `Name`,
except for the six exempted keywords. -/
def classifyWord (w : List Char) (rest : List Char) : TType :=
  let upper := strUpper (String.mk w)
  if upper ∈ parenExemptKeywords then TType.Keyword
  else
    match rest with
    | '(' :: _ => TType.Name
    | _ => keywordKind upper

/-- The sqlparse regex lexer over the character list, fuelled by the input
length (every step consumes at least one character, so the initial fuel
always suffices). -/
def lexAux : Nat → List Char → List Tok
  | 0, _ => []
  | _ + 1, [] => []
  | fuel + 1, c :: cs =>
    if c == '\n' || c == '\r' then
      ⟨TType.Newline, String.mk [c]⟩ :: lexAux fuel cs
    else if c == ' ' || c == '\t' then
      let p := List.span (fun d => d == ' ' || d == '\t') (c :: cs)
      ⟨TType.Whitespace, String.mk p.1⟩ :: lexAux fuel p.2
    else if c == '-' && isPrefixList ['-'] cs then
      let p := List.span (fun d => !(d == '\n' || d == '\r')) (c :: cs)
      ⟨TType.Comment, String.mk p.1⟩ :: lexAux fuel p.2
    else if c.isAlpha || c == '_' then
      let p := List.span wordChar (c :: cs)
      ⟨classifyWord p.1 p.2, String.mk p.1⟩ :: lexAux fuel p.2
    else if c.isDigit then
      let p := List.span Char.isDigit (c :: cs)
      match p.2 with
      | d :: _ =>
        if d.isAlpha || d == '_' then
          let q := List.span wordChar (c :: cs)
          ⟨TType.Name, String.mk q.1⟩ :: lexAux fuel q.2
        else ⟨TType.Number, String.mk p.1⟩ :: lexAux fuel p.2
      | [] => [⟨TType.Number, String.mk p.1⟩]
    else if c == '\'' then
      let p := List.span (fun d => d != '\'') cs
      match p.2 with
      | _ :: rest2 =>
        ⟨TType.StringLit, String.mk (c :: p.1 ++ ['\''])⟩ :: lexAux fuel rest2
      | [] => [⟨TType.StringLit, String.mk (c :: p.1)⟩]
    else if c == '"' then
      let p := List.span (fun d => d != '"') cs
      match p.2 with
      | _ :: rest2 =>
        ⟨TType.StringSym, String.mk (c :: p.1 ++ ['"'])⟩ :: lexAux fuel rest2
      | [] => [⟨TType.StringSym, String.mk (c :: p.1)⟩]
    else if c == '*' then
      ⟨TType.Wildcard, String.mk [c]⟩ :: lexAux fuel cs
    else if c == ';' || c == ',' || c == '(' || c == ')' || c == '[' ||
        c == ']' || c == '.' || c == ':' then
      ⟨TType.Punct, String.mk [c]⟩ :: lexAux fuel cs
    else if c == '<' || c == '>' || c == '=' || c == '~' || c == '!' ||
        c == '+' || c == '-' || c == '/' || c == '%' || c == '^' ||
        c == '&' || c == '|' || c == '@' then
      ⟨TType.Operator, String.mk [c]⟩ :: lexAux fuel cs
    else
      ⟨TType.ErrorTok, String.mk [c]⟩ :: lexAux fuel cs

/-- Lex a SQL string into sqlparse leaf tokens. -/
def lexString (q : String) : List Tok := lexAux q.data.length q.data

/-- Split-level delta of one token (`StatementSplitter._change_splitlevel`
outside CREATE blocks): parentheses nest, a keyword `END` closes a block. -/
def splitLevelDelta (t : Tok) : Int :=
  if t.ttype = TType.Punct ∧ t.value = "(" then 1
  else if t.ttype = TType.Punct ∧ t.value = ")" then -1
  else if t.ttype = TType.Keyword ∧ strUpper t.value = "END" then -1
  else 0

/-- `StatementSplitter.process`: accumulate tokens into statements; a
top-level `;` ends a statement, but trailing whitespace and line comments
are absorbed into it until the next substantial token (newlines count as
substantial, as in sqlparse). -/
def splitAux : List Tok → List Tok → Int → Bool → List (List Tok)
  | [], cur, _, _ => if cur.isEmpty then [] else [cur.reverse]
  | t :: ts, cur, level, cws =>
    let flush := cws ∧ t.ttype ≠ TType.Whitespace ∧ t.ttype ≠ TType.Comment
    let level2 := level + splitLevelDelta t
    let cws2 :=
      if t.ttype = TType.Punct ∧ t.value = ";" ∧ level2 ≤ 0 then true
      else if flush then false else cws
    if flush then cur.reverse :: splitAux ts [t] level2 cws2
    else splitAux ts (t :: cur) level2 cws2

/-- `sqlparse.parse(query)`: the list of parsed statements, each given by
its (flattened) token list. -/
def parse (q : String) : List (List Tok) :=
  splitAux (lexString q) [] 0 false

/-- Non-whitespace, non-comment test used by `token_first(skip_cm=True)`. -/
def substantial (t : Tok) : Bool :=
  !(t.ttype == TType.Whitespace || t.ttype == TType.Newline ||
    t.ttype == TType.Comment)

/-- Scan for the first DML keyword at parenthesis depth zero: models
`get_type`'s walk over the top-level tokens following `WITH`, where each
CTE definition (`name AS (...)`) is a grouped identifier skipped whole. -/
def cteDMLScan : Int → List Tok → Option String
  | _, [] => none
  | depth, t :: ts =>
    if t.ttype = TType.Punct ∧ t.value = "(" then cteDMLScan (depth + 1) ts
    else if t.ttype = TType.Punct ∧ t.value = ")" then cteDMLScan (depth - 1) ts
    else if depth ≤ 0 ∧ t.ttype = TType.DML then some (strUpper t.value)
    else cteDMLScan depth ts

/-- `Statement.get_type()`: the uppercased first DML/DDL keyword; after a
leading `WITH`, the DML keyword that follows the CTE definitions; otherwise
`"UNKNOWN"`. -/
def get_type (toks : List Tok) : String :=
  match toks.dropWhile (fun t => !substantial t) with
  | [] => "UNKNOWN"
  | t :: ts =>
    if t.ttype = TType.DML ∨ t.ttype = TType.DDL then strUpper t.value
    else if t.ttype = TType.CTE then (cteDMLScan 0 ts).getD "UNKNOWN"
    else "UNKNOWN"

end Sqlparse

namespace LLMAgent

/-- The destructive-keyword denylist `dangerous_keywords` of
`LLMAgent.validate_sql_query`. -/
def dangerous_keywords : List String :=
  ["DROP", "DELETE", "TRUNCATE", "UPDATE", "INSERT", "ALTER", "CREATE",
   "REPLACE", "EXEC", "EXECUTE", "CALL"]

/-- The dangerous function/pragma denylist `dangerous_functions`. -/
def dangerous_functions : List String :=
  ["LOAD_EXTENSION", "ATTACH", "DETACH", "PRAGMA"]

/-- The token-scan loop of `validate_sql_query`: the first flattened token
whose type *is* exactly `Keyword` (the identity test `token.ttype is
Keyword`, which never matches the `DML`/`DDL` subtypes) and whose uppercased
value lies in the denylist. -/
def firstUnsafeKeyword (toks : List Sqlparse.Tok) : Option String :=
  firstSomeMap (fun t =>
    if t.ttype = Sqlparse.TType.Keyword ∧
        Sqlparse.strUpper t.value ∈ dangerous_keywords then
      some (Sqlparse.strUpper t.value)
    else none) toks

/-- The raw-text scan of `validate_sql_query`: the first denylisted function
name occurring as a substring of the uppercased query text. -/
def firstUnauthorizedFunction (query : String) : Option String :=
  firstSomeMap (fun f =>
    if Sqlparse.listContainsSub (Sqlparse.strUpper query).data f.data = true then
      some f
    else none) dangerous_functions

/-- `LLMAgent.validate_sql_query`: parse; reject an unparseable query, more
than one statement, a statement type other than SELECT/UNKNOWN, a denylisted
keyword token, or a denylisted function substring; otherwise the query is
valid.  Returns the Python pair `(is_valid, error_message)`. -/
def validate_sql_query (query : String) : Bool × Option String :=
  match Sqlparse.parse query with
  | [] => (false, some "Invalid SQL syntax: Unable to parse query")
  | [stmt] =>
    let stmt_type := Sqlparse.get_type stmt
    if stmt_type ≠ "SELECT" ∧ stmt_type ≠ "UNKNOWN" then
      (false, some ("Only SELECT queries are allowed. Detected: " ++ stmt_type))
    else
      match firstUnsafeKeyword stmt with
      | some kw =>
        (false, some ("Unsafe SQL operation detected: " ++ kw ++
          ". Only SELECT queries are allowed"))
      | none =>
        match firstUnauthorizedFunction query with
        | some f => (false, some ("Unauthorized function detected: " ++ f))
        | none => (true, none)
  | _ :: _ :: _ =>
    (false, some "Multiple SQL statements detected. Only single SELECT queries are allowed")

/-- Python `str.strip()` over the character list. -/
def trimChars (cs : List Char) : List Char :=
  ((cs.dropWhile Char.isWhitespace).reverse.dropWhile Char.isWhitespace).reverse

/-- Python `str.replace(pat, rep)` for a nonempty pattern, fuelled by the
input length. -/
def replaceAux : Nat → List Char → List Char → List Char → List Char
  | 0, cs, _, _ => cs
  | _ + 1, [], _, _ => []
  | fuel + 1, c :: cs, pat, rep =>
    if Sqlparse.isPrefixList pat (c :: cs) then
      rep ++ replaceAux fuel (List.drop pat.length (c :: cs)) pat rep
    else c :: replaceAux fuel cs pat rep

/-- Python `str.replace(pat, rep)` (identity on an empty pattern, which does
not occur here). -/
def replaceF (cs pat rep : List Char) : List Char :=
  if pat.isEmpty then cs else replaceAux cs.length cs pat rep

/-- Python `str.split('\n')`: split on newline characters, keeping empty
parts. -/
def splitOnNl : List Char → List (List Char)
  | [] => [[]]
  | c :: cs =>
    if c == '\n' then [] :: splitOnNl cs
    else
      match splitOnNl cs with
      | [] => [[c]]
      | g :: gs => (c :: g) :: gs

/-- Python `' '.join(lines)`. -/
def joinSpace : List (List Char) → List Char
  | [] => []
  | [l] => l
  | l :: ls => l ++ ' ' :: joinSpace ls

/-- `LLMAgent._clean_sql`: strip markdown fences, drop blank and
`#`/`--`-prefixed lines, rejoin with spaces, then validate; an invalid
verdict raises `ValueError(error_msg)`, modelled as `Except.error`. -/
def _clean_sql (sql : String) : Except String String :=
  let cs := trimChars (replaceF (replaceF sql.data "```sql".data []) "```".data [])
  let sqlLines := (splitOnNl cs).filterMap (fun l =>
    let l2 := trimChars l
    if l2.isEmpty || Sqlparse.isPrefixList ['#'] l2 ||
        Sqlparse.isPrefixList ['-', '-'] l2 then none
    else some l2)
  let s := String.mk (joinSpace sqlLines)
  match validate_sql_query s with
  | (true, _) => Except.ok s
  | (false, msg) => Except.error (msg.getD "")

end LLMAgent

namespace Main

/-- The `QueryResponse` pydantic model returned by the `/query` route. -/
structure QueryResponse where
  success : Bool
  sql_query : Option String
  result : Option Df
  error : Option String
  visualization_type : String
  execution_time_ms : Nat
deriving Repr

/-- Result of one `/query` route invocation: the returned response, or the
exception text that escaped the route body (re-raised as HTTP 500); plus
instrumentation counting `refine_query` invocations and engine execution
attempts. -/
structure RouteResult where
  outcome : Except String QueryResponse
  refine_calls : Nat
  exec_calls : Nat
deriving Repr

/-- The `/query` route body of `backend/main.py` from the re-registration of
the DataFrame onward — the Correction Loop.  `genOut` is the raw LLM output
for `generate_sql` (the external generator treated as an oracle); `refineOut
failed_sql error` that of `refine_query`; `viz` models
`suggest_visualization`; `d1`, `d2` are the wall-clock durations of the two
possible engine attempts.  `generate_sql`/`refine_query` apply `_clean_sql`
to the oracle output, so a rejected validation verdict raises, which the
route's `except Exception` turns into an HTTP 500 (`Except.error`). -/
def execute_query (genOut : String) (refineOut : String → String → String)
    (viz : String → Df → String) (engine : Engine) (now d1 d2 : Nat)
    (st : QueryExecutor.ExecState) (sid : Nat) (df : Df) : RouteResult :=
  let st0 := QueryExecutor.register_dataframe now st sid df "sales_data"
  match LLMAgent._clean_sql genOut with
  | Except.error e => ⟨Except.error e, 0, 0⟩
  | Except.ok sql =>
    let r1 := QueryExecutor.execute_query engine now d1 st0 sid sql
    let o1 := r1.1
    if o1.success then
      ⟨Except.ok ⟨true, some sql, o1.result, none,
        viz sql (o1.result.getD ⟨[], []⟩), o1.time_ms⟩, 0, 1⟩
    else
      match LLMAgent._clean_sql (refineOut sql (o1.error.getD "")) with
      | Except.error e => ⟨Except.error e, 1, 1⟩
      | Except.ok refined =>
        let r2 := QueryExecutor.execute_query engine now d2 r1.2.1 sid refined
        let o2 := r2.1
        if o2.success then
          ⟨Except.ok ⟨true, some refined, o2.result, none,
            viz refined (o2.result.getD ⟨[], []⟩), o2.time_ms⟩, 1, 2⟩
        else
          ⟨Except.ok ⟨false, some refined, none, o2.error, "table",
            o2.time_ms⟩, 1, 2⟩

end Main

/-! Concrete fixtures used in scenario statements and witnesses. -/

/-- A small concrete dataset standing in for an uploaded table. -/
def sampleDf : Df := ⟨["total_amount"], [["10"], ["20"]]⟩

/-- An engine oracle that runs every query successfully. -/
def okEngine : Engine := fun _ _ => Except.ok sampleDf

/-- An engine oracle that always raises. -/
def failEngine : Engine := fun _ _ => Except.error "Binder Error: column nope not found"

/-- An engine oracle that rejects the first candidate query and accepts any
other query: the classic correction-loop situation. -/
def retryEngine : Engine := fun _ q =>
  if q = "SELECT 1 FROM sales_data" then Except.error "Binder Error: nope"
  else Except.ok sampleDf

/-- An empty pool configured with capacity 2 (the spec's admission-control
scenario). -/
def pool2 : QueryExecutor.ExecState :=
  { connections := [], schema_cache := [], last_access := []
    max_sessions := 2, session_timeout := 3600 }

/-- The capacity-2 pool after registering sessions 1, 2, 3 (A, B, C) at
successive instants with no intervening activity. -/
def pool2ABC : QueryExecutor.ExecState :=
  QueryExecutor.register_dataframe 2
    (QueryExecutor.register_dataframe 1
      (QueryExecutor.register_dataframe 0 pool2 1 sampleDf "data")
      2 sampleDf "data")
    3 sampleDf "data"

/-- A pool holding a single active session 1 with the `sales_data` table. -/
def oneSession : QueryExecutor.ExecState :=
  { connections := [(1, [("sales_data", sampleDf)])], schema_cache := []
    last_access := [(1, 0)], max_sessions := 10, session_timeout := 3600 }

/-! Helper lemmas about the dictionary model. -/

theorem length_keysOf {κ α : Type} (l : List (κ × α)) :
    (keysOf l).length = l.length :=
  List.length_map l Prod.fst

theorem keysOf_eraseKey {κ α : Type} [DecidableEq κ] (l : List (κ × α))
    (k : κ) :
    keysOf (eraseKey l k) = (keysOf l).filter (fun x => decide (x ≠ k)) := by
  induction l with
  | nil => rfl
  | cons p rest ih =>
    by_cases h : p.1 = k <;>
      simp [eraseKey, keysOf, List.filter_cons, h] at ih ⊢ <;>
      simpa [eraseKey, keysOf] using ih

theorem length_eraseKey_le {κ α : Type} [DecidableEq κ] (l : List (κ × α))
    (k : κ) : (eraseKey l k).length ≤ l.length :=
  List.length_filter_le _ l

theorem length_eraseKey_lt_of_mem {κ α : Type} [DecidableEq κ]
    {l : List (κ × α)} {k : κ} (h : k ∈ keysOf l) :
    (eraseKey l k).length < l.length := by
  induction l with
  | nil => simp [keysOf] at h
  | cons p rest ih =>
    by_cases hp : p.1 = k
    · have : eraseKey (p :: rest) k = eraseKey rest k := by
        simp [eraseKey, List.filter_cons, hp]
      rw [this]
      exact Nat.lt_succ_of_le (length_eraseKey_le rest k)
    · have hk : k ∈ keysOf rest := by
        rcases (by simpa [keysOf] using h : k = p.1 ∨ k ∈ keysOf rest) with h1 | h1
        · exact absurd h1.symm hp
        · exact h1
      have : eraseKey (p :: rest) k = p :: eraseKey rest k := by
        simp [eraseKey, List.filter_cons, hp]
      rw [this]
      simpa using Nat.succ_lt_succ (ih hk)

theorem mem_keysOf_of_mem_eraseKey {κ α : Type} [DecidableEq κ]
    {l : List (κ × α)} {k sid : κ} (h : sid ∈ keysOf (eraseKey l k)) :
    sid ∈ keysOf l := by
  rw [keysOf_eraseKey] at h
  exact List.mem_of_mem_filter h

theorem lookupKey_eraseKey_self {κ α : Type} [DecidableEq κ]
    (l : List (κ × α)) (k : κ) : lookupKey (eraseKey l k) k = none := by
  induction l with
  | nil => rfl
  | cons p rest ih =>
    by_cases hp : p.1 = k
    · simpa [eraseKey, List.filter_cons, hp] using ih
    · have : eraseKey (p :: rest) k = p :: eraseKey rest k := by
        simp [eraseKey, List.filter_cons, hp]
      rw [this]
      simpa [lookupKey, hp] using ih

theorem eraseKey_eraseKey {κ α : Type} [DecidableEq κ] (l : List (κ × α))
    (k : κ) : eraseKey (eraseKey l k) k = eraseKey l k := by
  induction l with
  | nil => rfl
  | cons p rest ih =>
    by_cases hp : p.1 = k
    · have h0 : eraseKey (p :: rest) k = eraseKey rest k := by
        simp [eraseKey, List.filter_cons, hp]
      rw [h0, ih]
    · have h1 : eraseKey (p :: rest) k = p :: eraseKey rest k := by
        simp [eraseKey, List.filter_cons, hp]
      rw [h1]
      have h2 : eraseKey (p :: eraseKey rest k) k
          = p :: eraseKey (eraseKey rest k) k := by
        simp [eraseKey, List.filter_cons, hp]
      rw [h2, ih]

theorem keysOf_setKey {κ α : Type} [DecidableEq κ] (l : List (κ × α))
    (k : κ) (v : α) :
    keysOf (setKey l k v)
      = if k ∈ keysOf l then keysOf l else keysOf l ++ [k] := by
  induction l with
  | nil => simp [setKey, keysOf]
  | cons p rest ih =>
    by_cases hp : p.1 = k
    · simp [setKey, keysOf, hp]
    · have hne : ¬ k = p.1 := fun h => hp h.symm
      have hset : setKey (p :: rest) k v = p :: setKey rest k v := by
        simp [setKey, hp]
      rw [hset]
      by_cases hk : k ∈ keysOf rest
      · simp only [keysOf] at hk
        simp [keysOf, List.mem_cons, hne, hk] at ih ⊢
        rw [ih]
      · simp only [keysOf] at hk
        simp [keysOf, List.mem_cons, hne, hk] at ih ⊢
        rw [ih]

theorem length_setKey {κ α : Type} [DecidableEq κ] (l : List (κ × α))
    (k : κ) (v : α) :
    (setKey l k v).length
      = if k ∈ keysOf l then l.length else l.length + 1 := by
  have h := congrArg List.length (keysOf_setKey l k v)
  rw [length_keysOf] at h
  by_cases hk : k ∈ keysOf l <;>
    simp [hk] at h ⊢ <;>
    simp [length_keysOf] at h <;> omega

theorem firstSomeMap_eq_none_of_all {α β : Type} (f : α → Option β) :
    ∀ l : List α, (∀ x ∈ l, f x = none) → firstSomeMap f l = none
  | [], _ => rfl
  | a :: l, h => by
    have ha : f a = none := h a (List.mem_cons_self a l)
    have ih := firstSomeMap_eq_none_of_all f l fun x hx =>
      h x (List.mem_cons_of_mem a hx)
    simp [firstSomeMap, ha, ih]

/-! Helper lemmas about the session pool. -/

namespace QueryExecutor

theorem close_session_max (st : ExecState) (sid : Nat) :
    (close_session st sid).max_sessions = st.max_sessions := rfl

theorem close_session_sync {st : ExecState} (sid : Nat)
    (h : keysOf st.connections = keysOf st.last_access) :
    keysOf (close_session st sid).connections
      = keysOf (close_session st sid).last_access := by
  show keysOf (eraseKey st.connections sid) = keysOf (eraseKey st.last_access sid)
  rw [keysOf_eraseKey, keysOf_eraseKey, h]

theorem close_session_len_le (st : ExecState) (sid : Nat) :
    (close_session st sid).connections.length ≤ st.connections.length :=
  length_eraseKey_le _ _

theorem foldl_close_max : ∀ (ids : List Nat) (st : ExecState),
    (ids.foldl close_session st).max_sessions = st.max_sessions
  | [], _ => rfl
  | i :: ids, st => by
    rw [List.foldl_cons, foldl_close_max ids _, close_session_max]

theorem foldl_close_sync : ∀ (ids : List Nat) (st : ExecState),
    keysOf st.connections = keysOf st.last_access →
    keysOf ((ids.foldl close_session st)).connections
      = keysOf ((ids.foldl close_session st)).last_access
  | [], _, h => h
  | i :: ids, st, h => by
    rw [List.foldl_cons]
    exact foldl_close_sync ids _ (close_session_sync i h)

theorem foldl_close_len_le : ∀ (ids : List Nat) (st : ExecState),
    ((ids.foldl close_session st)).connections.length
      ≤ st.connections.length
  | [], _ => Nat.le_refl _
  | i :: ids, st => by
    rw [List.foldl_cons]
    exact Nat.le_trans (foldl_close_len_le ids _) (close_session_len_le st i)

theorem cleanup_max (now : Nat) (st : ExecState) :
    (_cleanup_expired_sessions now st).max_sessions = st.max_sessions := by
  unfold _cleanup_expired_sessions
  exact foldl_close_max _ _

theorem cleanup_sync (now : Nat) {st : ExecState}
    (h : keysOf st.connections = keysOf st.last_access) :
    keysOf (_cleanup_expired_sessions now st).connections
      = keysOf (_cleanup_expired_sessions now st).last_access := by
  unfold _cleanup_expired_sessions
  exact foldl_close_sync _ _ h

theorem cleanup_len_le (now : Nat) (st : ExecState) :
    (_cleanup_expired_sessions now st).connections.length
      ≤ st.connections.length := by
  unfold _cleanup_expired_sessions
  exact foldl_close_len_le _ _

theorem minEntry_eq_none {l : List (Nat × Nat)} (h : minEntry l = none) :
    l = [] := by
  cases l with
  | nil => rfl
  | cons p rest =>
    exfalso
    cases hm : minEntry rest with
    | none => simp [minEntry, hm] at h
    | some kv => by_cases hle : p.2 ≤ kv.2 <;> simp [minEntry, hm, hle] at h

theorem minEntry_mem : ∀ {l : List (Nat × Nat)} {kv : Nat × Nat},
    minEntry l = some kv → kv.1 ∈ keysOf l := by
  intro l
  induction l with
  | nil => intro kv h; simp [minEntry] at h
  | cons p rest ih =>
    intro kv h
    cases hm : minEntry rest with
    | none =>
      simp [minEntry, hm] at h
      simp [keysOf, ← h]
    | some kv2 =>
      by_cases hle : p.2 ≤ kv2.2
      · simp [minEntry, hm, hle] at h
        simp [keysOf, ← h]
      · simp [minEntry, hm, hle] at h
        have := ih hm
        subst h
        simp [keysOf] at this ⊢
        exact Or.inr this

end QueryExecutor

/-! Claim theorems. -/

/-- Claim C6: for every session handle with no active execution context,
`execute_query` returns a failure outcome whose error text conveys the
reason "no data registered", with elapsed time zero; the execution engine is
never invoked (invocation count 0) and the pool state is unchanged. -/
theorem C6_no_context_failure (engine : Engine) (now dur : Nat)
    (st : QueryExecutor.ExecState) (sid : Nat) (q : String)
    (h : lookupKey st.connections sid = none) :
    QueryExecutor.execute_query engine now dur st sid q =
      (⟨false, none, some "No data registered for this session", 0⟩, st, 0) ∧
    Sqlparse.listContainsSub
      ("No data registered for this session".data.map Char.toLower)
      "no data registered".data = true := by
  constructor
  · unfold QueryExecutor.execute_query
    rw [h]
  · decide

/-- Witness for C6 at a concrete empty pool. -/
theorem C6_no_context_failure_witness :
    QueryExecutor.execute_query okEngine 0 5 QueryExecutor.initState 1
      "SELECT 1" =
      (⟨false, none, some "No data registered for this session", 0⟩,
        QueryExecutor.initState, 0) ∧
    Sqlparse.listContainsSub
      ("No data registered for this session".data.map Char.toLower)
      "no data registered".data = true :=
  C6_no_context_failure okEngine 0 5 QueryExecutor.initState 1 "SELECT 1" rfl

/-- Claim C7: every outcome of `execute_query` is exclusively tagged — a
success carries a result table and no error text, a failure carries an error
text and no result, never both; when the session has a context the elapsed
time equals the duration of the engine attempt alone (on success and on
failure alike — the executor performs no validation), the success result is
the engine's table and the failure text is the engine's error verbatim. -/
theorem C7_outcome_tagged (engine : Engine) (now dur : Nat)
    (st : QueryExecutor.ExecState) (sid : Nat) (q : String) :
    ((QueryExecutor.execute_query engine now dur st sid q).1.success = true →
      (QueryExecutor.execute_query engine now dur st sid q).1.result.isSome = true ∧
      (QueryExecutor.execute_query engine now dur st sid q).1.error = none) ∧
    ((QueryExecutor.execute_query engine now dur st sid q).1.success = false →
      (QueryExecutor.execute_query engine now dur st sid q).1.error.isSome = true ∧
      (QueryExecutor.execute_query engine now dur st sid q).1.result = none) ∧
    (∀ ctx, lookupKey st.connections sid = some ctx →
      (QueryExecutor.execute_query engine now dur st sid q).1.time_ms = dur ∧
      (∀ d2, engine ctx q = Except.ok d2 →
        (QueryExecutor.execute_query engine now dur st sid q).1 =
          ⟨true, some d2, none, dur⟩) ∧
      (∀ e, engine ctx q = Except.error e →
        (QueryExecutor.execute_query engine now dur st sid q).1 =
          ⟨false, none, some e, dur⟩)) := by
  cases hl : lookupKey st.connections sid with
  | none =>
    simp [QueryExecutor.execute_query, hl]
  | some ctx0 =>
    cases he : engine ctx0 q with
    | ok d0 =>
      simp only [QueryExecutor.execute_query, hl, he]
      refine ⟨fun _ => by simp, fun hfalse => by simp at hfalse, ?_⟩
      intro ctx hctx
      injection hctx with hc
      subst hc
      refine ⟨by trivial, ?_, ?_⟩
      · intro d2 h2
        rw [he] at h2
        injection h2 with h3
        subst h3
        rfl
      · intro e h2
        rw [he] at h2
        exact absurd h2 (by simp)
    | error e0 =>
      simp only [QueryExecutor.execute_query, hl, he]
      refine ⟨fun htrue => by simp at htrue, fun _ => by simp, ?_⟩
      intro ctx hctx
      injection hctx with hc
      subst hc
      refine ⟨by trivial, ?_, ?_⟩
      · intro d2 h2
        rw [he] at h2
        exact absurd h2 (by simp)
      · intro e h2
        rw [he] at h2
        injection h2 with h3
        subst h3
        rfl

/-- Witness for C7 with a populated session and a raising engine. -/
theorem C7_outcome_tagged_witness :
    (QueryExecutor.execute_query failEngine 4 7 oneSession 1
        "SELECT nope FROM sales_data").1 =
      ⟨false, none, some "Binder Error: column nope not found", 7⟩ :=
  ((C7_outcome_tagged failEngine 4 7 oneSession 1
      "SELECT nope FROM sales_data").2.2 [("sales_data", sampleDf)] rfl).2.2
    "Binder Error: column nope not found" rfl

/-- Claim C9: for every session with an active context, any exception raised
by the engine while running the query is caught and converted into a failure
outcome carrying the exception text — `execute_query` always returns a
value; no engine exception escapes. -/
theorem C9_engine_error_converted (engine : Engine) (now dur : Nat)
    (st : QueryExecutor.ExecState) (sid : Nat) (q : String) (ctx : Ctx)
    (e : String) (hctx : lookupKey st.connections sid = some ctx)
    (herr : engine ctx q = Except.error e) :
    (QueryExecutor.execute_query engine now dur st sid q).1 =
      ⟨false, none, some e, dur⟩ := by
  simp only [QueryExecutor.execute_query, hctx, herr]

/-- Witness for C9 with a concrete raising engine. -/
theorem C9_engine_error_converted_witness :
    (QueryExecutor.execute_query failEngine 9 3 oneSession 1
        "SELECT broken FROM sales_data").1 =
      ⟨false, none, some "Binder Error: column nope not found", 3⟩ :=
  C9_engine_error_converted failEngine 9 3 oneSession 1
    "SELECT broken FROM sales_data" [("sales_data", sampleDf)]
    "Binder Error: column nope not found" rfl rfl

/-- Claim C10: `close_session` is total and idempotent — after the call the
handle has no connection, no cached schema and no access record, and closing
the same handle again (including a handle that never had a context) leaves
the pool state unchanged. -/
theorem C10_close_idempotent (st : QueryExecutor.ExecState) (sid : Nat) :
    lookupKey (QueryExecutor.close_session st sid).connections sid = none ∧
    lookupKey (QueryExecutor.close_session st sid).schema_cache sid = none ∧
    lookupKey (QueryExecutor.close_session st sid).last_access sid = none ∧
    QueryExecutor.close_session (QueryExecutor.close_session st sid) sid =
      QueryExecutor.close_session st sid := by
  refine ⟨lookupKey_eraseKey_self _ _, lookupKey_eraseKey_self _ _,
    lookupKey_eraseKey_self _ _, ?_⟩
  simp [QueryExecutor.close_session, eraseKey_eraseKey]

/-- Claim C3: every SQL string that parses into more than one top-level
statement is rejected by `validate_sql_query` with the multiple-statements
reason, regardless of the statements' contents. -/
theorem C3_multiple_statements_invalid (q : String)
    (h : 1 < (Sqlparse.parse q).length) :
    LLMAgent.validate_sql_query q =
      (false,
        some "Multiple SQL statements detected. Only single SELECT queries are allowed") := by
  cases hp : Sqlparse.parse q with
  | nil =>
    rw [hp] at h
    exact absurd h (by simp)
  | cons a as =>
    cases as with
    | nil =>
      rw [hp] at h
      exact absurd h (by simp)
    | cons b bs =>
      simp [LLMAgent.validate_sql_query, hp]

/-- Witness for C3 at the spec's chained-statement scenario. -/
theorem C3_multiple_statements_invalid_witness :
    LLMAgent.validate_sql_query
        "SELECT * FROM sales_data; SELECT * FROM sales_data" =
      (false,
        some "Multiple SQL statements detected. Only single SELECT queries are allowed") :=
  C3_multiple_statements_invalid
    "SELECT * FROM sales_data; SELECT * FROM sales_data" (by decide)

/-- Claim C5: every SQL string whose sole parsed statement is a SELECT, with
no keyword-classified token spelled like a denylisted keyword and no
denylisted function name occurring in the uppercased raw text (the spec's
raw-text scan), is accepted by `validate_sql_query`. -/
theorem C5_clean_select_valid (q : String)
    (h1 : (Sqlparse.parse q).length = 1)
    (h2 : ∀ s ∈ Sqlparse.parse q, Sqlparse.get_type s = "SELECT")
    (h3 : ∀ s ∈ Sqlparse.parse q, ∀ t ∈ s,
      (t.ttype = Sqlparse.TType.Keyword ∨ t.ttype = Sqlparse.TType.DML ∨
        t.ttype = Sqlparse.TType.DDL ∨ t.ttype = Sqlparse.TType.CTE) →
      Sqlparse.strUpper t.value ∉ LLMAgent.dangerous_keywords)
    (h4 : ∀ f ∈ LLMAgent.dangerous_functions,
      Sqlparse.listContainsSub (Sqlparse.strUpper q).data f.data = false) :
    LLMAgent.validate_sql_query q = (true, none) := by
  cases hp : Sqlparse.parse q with
  | nil =>
    rw [hp] at h1
    exact absurd h1 (by simp)
  | cons a as =>
    cases as with
    | cons b bs =>
      rw [hp] at h1
      exact absurd h1 (by simp)
    | nil =>
      have hmem : a ∈ Sqlparse.parse q := by
        rw [hp]
        exact List.mem_singleton.mpr rfl
      have hty : Sqlparse.get_type a = "SELECT" := h2 a hmem
      have hkw : LLMAgent.firstUnsafeKeyword a = none := by
        apply firstSomeMap_eq_none_of_all
        intro t ht
        rw [if_neg]
        intro hcond
        exact h3 a hmem t ht (Or.inl hcond.1) hcond.2
      have hfn : LLMAgent.firstUnauthorizedFunction q = none := by
        apply firstSomeMap_eq_none_of_all
        intro f hf
        rw [if_neg]
        rw [h4 f hf]
        simp
      simp [LLMAgent.validate_sql_query, hp, hty, hkw, hfn]

/-- Witness for C5 at the spec's aggregation scenario query. -/
theorem C5_clean_select_valid_witness :
    LLMAgent.validate_sql_query "SELECT SUM(total_amount) FROM sales_data" =
      (true, none) :=
  C5_clean_select_valid "SELECT SUM(total_amount) FROM sales_data"
    (by decide) (by decide) (by decide) (by decide)

/-- Claim C2 (failing input): `"SELECT drop FROM data"` parses into a single
statement containing a keyword-classified token (sqlparse type
`Keyword.DDL`) spelled `DROP` — a denylisted keyword — yet
`validate_sql_query` returns valid: the scan `token.ttype is Keyword` never
matches the `DDL`/`DML` keyword subtypes, so seven of the eleven denylisted
keywords can never be flagged by the token scan, contradicting the code's
own denylist and the claim. -/
theorem C2_keyword_scan_misses_ddl :
    LLMAgent.validate_sql_query "SELECT drop FROM data" = (true, none) ∧
    (Sqlparse.parse "SELECT drop FROM data").length = 1 ∧
    (∃ s ∈ Sqlparse.parse "SELECT drop FROM data", ∃ t ∈ s,
      t.ttype = Sqlparse.TType.DDL ∧ Sqlparse.strUpper t.value = "DROP" ∧
      Sqlparse.strUpper t.value ∈ LLMAgent.dangerous_keywords) := by
  refine ⟨by decide, by decide, ?_⟩
  decide

/-- Claim C1 (counterexample): when the generator's first candidate is
`"DROP TABLE sales_data"`, the Safety Validator rejects it and the route
aborts with the validator's reason as a raised exception (`Except.error`,
surfaced as HTTP 500): the refine operation is invoked zero times — not
once — and the rejection propagates past the loop instead of being treated
as an execution failure feeding a refinement. -/
theorem C1_rejection_counterexample :
    Main.execute_query "DROP TABLE sales_data" (fun _ _ => "SELECT 1")
        (fun _ _ => "table") okEngine 0 1 2 QueryExecutor.initState 1
        sampleDf =
      ⟨Except.error "Only SELECT queries are allowed. Detected: DROP", 0, 0⟩ := by
  rfl

/-- Claim C1 (amended): whenever the Safety Validator rejects the candidate
SQL produced by the generator, `_clean_sql` raises a `ValueError` carrying
the validator's reason; the query is never executed (zero engine
invocations), no refinement attempt occurs (zero refine invocations), and
the exception propagates out of the correction loop to the route's generic
handler. -/
theorem C1_rejection_raises (genOut : String)
    (refineOut : String → String → String) (viz : String → Df → String)
    (engine : Engine) (now d1 d2 : Nat) (st : QueryExecutor.ExecState)
    (sid : Nat) (df : Df) (e : String)
    (h : LLMAgent._clean_sql genOut = Except.error e) :
    Main.execute_query genOut refineOut viz engine now d1 d2 st sid df =
      ⟨Except.error e, 0, 0⟩ := by
  simp only [Main.execute_query, h]

/-- Witness for the amended C1 at a distinct rejected candidate. -/
theorem C1_rejection_raises_witness :
    Main.execute_query "DELETE FROM sales_data" (fun _ _ => "SELECT 2")
        (fun _ _ => "bar") okEngine 3 4 5 oneSession 1 sampleDf =
      ⟨Except.error "Only SELECT queries are allowed. Detected: DELETE", 0, 0⟩ :=
  C1_rejection_raises "DELETE FROM sales_data" (fun _ _ => "SELECT 2")
    (fun _ _ => "bar") okEngine 3 4 5 oneSession 1 sampleDf
    "Only SELECT queries are allowed. Detected: DELETE" rfl

/-- Keys of the connection and access maps stay equal across the
session-limit eviction step. -/
theorem QueryExecutor.evict_sync (st1 : QueryExecutor.ExecState) (sid : Nat)
    (hsync1 : keysOf st1.connections = keysOf st1.last_access) :
    keysOf (QueryExecutor.evictIfNeeded st1 sid).connections
      = keysOf (QueryExecutor.evictIfNeeded st1 sid).last_access := by
  unfold QueryExecutor.evictIfNeeded
  split
  · split
    · exact QueryExecutor.close_session_sync _ hsync1
    · exact hsync1
  · exact hsync1

/-- Registration after eviction keeps the pool within a positive capacity and
keeps the connection and access maps in key agreement. -/
theorem QueryExecutor.evict_then_reg_bound (st1 : QueryExecutor.ExecState)
    (now sid : Nat) (df : Df) (tn : String) (M : Nat)
    (hsync1 : keysOf st1.connections = keysOf st1.last_access)
    (hmax1 : st1.max_sessions = M)
    (hl1 : st1.connections.length ≤ M) (hpos : 1 ≤ M) :
    (QueryExecutor.regFinal (QueryExecutor.evictIfNeeded st1 sid) now sid df
        tn).connections.length ≤ M ∧
    keysOf (QueryExecutor.regFinal (QueryExecutor.evictIfNeeded st1 sid) now
        sid df tn).connections
      = keysOf (QueryExecutor.regFinal (QueryExecutor.evictIfNeeded st1 sid)
          now sid df tn).last_access := by
  have hsync2 := QueryExecutor.evict_sync st1 sid hsync1
  have hkey : (sid ∈ keysOf (QueryExecutor.evictIfNeeded st1 sid).connections →
        (QueryExecutor.evictIfNeeded st1 sid).connections.length ≤ M) ∧
      (sid ∉ keysOf (QueryExecutor.evictIfNeeded st1 sid).connections →
        (QueryExecutor.evictIfNeeded st1 sid).connections.length + 1 ≤ M) := by
    unfold QueryExecutor.evictIfNeeded
    split
    next hc =>
      cases hm : QueryExecutor.minEntry st1.last_access with
      | none =>
        exfalso
        have hnil := QueryExecutor.minEntry_eq_none hm
        have hkeys : keysOf st1.connections = ([] : List Nat) := by
          rw [hsync1, hnil]
          rfl
        have hlen0 : st1.connections.length = 0 := by
          have h2 := congrArg List.length hkeys
          rwa [length_keysOf] at h2
        have hc2 := hc.2
        omega
      | some kv =>
        dsimp only
        have hmemc : kv.1 ∈ keysOf st1.connections := by
          rw [hsync1]
          exact QueryExecutor.minEntry_mem hm
        have hlt : (QueryExecutor.close_session st1 kv.1).connections.length
            < st1.connections.length := length_eraseKey_lt_of_mem hmemc
        constructor
        · intro _
          omega
        · intro _
          omega
    next hc =>
      constructor
      · intro _
        exact hl1
      · intro hnot
        have hle : ¬ st1.max_sessions ≤ st1.connections.length :=
          fun hle => hc ⟨hnot, hle⟩
        omega
  have hconn : (QueryExecutor.regFinal (QueryExecutor.evictIfNeeded st1 sid)
      now sid df tn).connections
      = setKey (QueryExecutor.evictIfNeeded st1 sid).connections sid
          (setKey ((lookupKey (QueryExecutor.evictIfNeeded st1
            sid).connections sid).getD []) tn df) := rfl
  have hla : (QueryExecutor.regFinal (QueryExecutor.evictIfNeeded st1 sid)
      now sid df tn).last_access
      = setKey (QueryExecutor.evictIfNeeded st1 sid).last_access sid now :=
    rfl
  constructor
  · rw [hconn, length_setKey]
    by_cases hin : sid ∈ keysOf (QueryExecutor.evictIfNeeded st1
        sid).connections
    · rw [if_pos hin]
      exact hkey.1 hin
    · rw [if_neg hin]
      exact hkey.2 hin
  · rw [hconn, hla, keysOf_setKey, keysOf_setKey, hsync2]

/-- Claim C8: the session pool never exceeds its configured capacity — a
registration against a pool whose connection and access maps agree on their
keys and whose size is within the (positive) capacity leaves the pool within
capacity, the maps still agreeing; and concretely, with capacity 2,
registering sessions 1, 2, 3 (A, B, C) in order with no intervening activity
evicts the least-recently-used session A, whose subsequent execute fails
with the "no data registered" outcome. -/
theorem C8_pool_bounded (now : Nat) (st : QueryExecutor.ExecState)
    (sid : Nat) (df : Df) (tn : String)
    (hsync : keysOf st.connections = keysOf st.last_access)
    (hcap : st.connections.length ≤ st.max_sessions)
    (hpos : 1 ≤ st.max_sessions) :
    ((QueryExecutor.register_dataframe now st sid df tn).connections.length
        ≤ st.max_sessions ∧
      keysOf (QueryExecutor.register_dataframe now st sid df tn).connections
        = keysOf (QueryExecutor.register_dataframe now st sid df
            tn).last_access) ∧
    (keysOf pool2ABC.connections = [2, 3] ∧
      (QueryExecutor.execute_query okEngine 3 5 pool2ABC 1 "SELECT 1").1 =
        ⟨false, none, some "No data registered for this session", 0⟩) := by
  refine ⟨?_, by decide, by decide⟩
  have hmax1 := QueryExecutor.cleanup_max now st
  have hs1 := QueryExecutor.cleanup_sync now hsync
  have hl1 : (QueryExecutor._cleanup_expired_sessions now
      st).connections.length ≤ st.max_sessions :=
    Nat.le_trans (QueryExecutor.cleanup_len_le now st) hcap
  exact QueryExecutor.evict_then_reg_bound
    (QueryExecutor._cleanup_expired_sessions now st) now sid df tn
    st.max_sessions hs1 hmax1 hl1 hpos

/-- Witness for C8 at a concrete registration into the default pool. -/
theorem C8_pool_bounded_witness :
    ((QueryExecutor.register_dataframe 0 QueryExecutor.initState 1 sampleDf
        "data").connections.length ≤ QueryExecutor.initState.max_sessions ∧
      keysOf (QueryExecutor.register_dataframe 0 QueryExecutor.initState 1
          sampleDf "data").connections
        = keysOf (QueryExecutor.register_dataframe 0 QueryExecutor.initState
            1 sampleDf "data").last_access) ∧
    (keysOf pool2ABC.connections = [2, 3] ∧
      (QueryExecutor.execute_query okEngine 3 5 pool2ABC 1 "SELECT 1").1 =
        ⟨false, none, some "No data registered for this session", 0⟩) :=
  C8_pool_bounded 0 QueryExecutor.initState 1 sampleDf "data" rfl
    (by decide) (by decide)

/-- The correction loop when the generator output fails validation: the
exception propagates, nothing is refined or executed. -/
theorem routeGenError (genOut : String)
    (refineOut : String → String → String) (viz : String → Df → String)
    (engine : Engine) (now d1 d2 : Nat) (st : QueryExecutor.ExecState)
    (sid : Nat) (df : Df) (e : String)
    (hg : LLMAgent._clean_sql genOut = Except.error e) :
    Main.execute_query genOut refineOut viz engine now d1 d2 st sid df =
      ⟨Except.error e, 0, 0⟩ := by
  simp only [Main.execute_query, hg]

/-- The correction loop when the first executed attempt succeeds. -/
theorem routeFirstSuccess (genOut : String)
    (refineOut : String → String → String) (viz : String → Df → String)
    (engine : Engine) (now d1 d2 : Nat) (st : QueryExecutor.ExecState)
    (sid : Nat) (df : Df) (sql : String)
    (hg : LLMAgent._clean_sql genOut = Except.ok sql)
    (hs : (QueryExecutor.execute_query engine now d1
      (QueryExecutor.register_dataframe now st sid df "sales_data") sid
      sql).1.success = true) :
    Main.execute_query genOut refineOut viz engine now d1 d2 st sid df =
      ⟨Except.ok ⟨true, some sql,
        (QueryExecutor.execute_query engine now d1
          (QueryExecutor.register_dataframe now st sid df "sales_data") sid
          sql).1.result, none,
        viz sql ((QueryExecutor.execute_query engine now d1
          (QueryExecutor.register_dataframe now st sid df "sales_data") sid
          sql).1.result.getD ⟨[], []⟩),
        (QueryExecutor.execute_query engine now d1
          (QueryExecutor.register_dataframe now st sid df "sales_data") sid
          sql).1.time_ms⟩, 0, 1⟩ := by
  simp only [Main.execute_query, hg]
  rw [if_pos hs]

/-- The correction loop when the first attempt fails and the refined output
fails validation: the exception propagates after one refinement. -/
theorem routeRefineError (genOut : String)
    (refineOut : String → String → String) (viz : String → Df → String)
    (engine : Engine) (now d1 d2 : Nat) (st : QueryExecutor.ExecState)
    (sid : Nat) (df : Df) (sql e2 : String)
    (hg : LLMAgent._clean_sql genOut = Except.ok sql)
    (hs : (QueryExecutor.execute_query engine now d1
      (QueryExecutor.register_dataframe now st sid df "sales_data") sid
      sql).1.success = false)
    (hr : LLMAgent._clean_sql (refineOut sql
      ((QueryExecutor.execute_query engine now d1
        (QueryExecutor.register_dataframe now st sid df "sales_data") sid
        sql).1.error.getD "")) = Except.error e2) :
    Main.execute_query genOut refineOut viz engine now d1 d2 st sid df =
      ⟨Except.error e2, 1, 1⟩ := by
  simp only [Main.execute_query, hg]
  rw [if_neg (by rw [hs]; exact Bool.false_ne_true)]
  simp only [hr]

/-- The correction loop when the first attempt fails and the refined query
succeeds. -/
theorem routeRefinedSuccess (genOut : String)
    (refineOut : String → String → String) (viz : String → Df → String)
    (engine : Engine) (now d1 d2 : Nat) (st : QueryExecutor.ExecState)
    (sid : Nat) (df : Df) (sql refined : String)
    (hg : LLMAgent._clean_sql genOut = Except.ok sql)
    (hs : (QueryExecutor.execute_query engine now d1
      (QueryExecutor.register_dataframe now st sid df "sales_data") sid
      sql).1.success = false)
    (hr : LLMAgent._clean_sql (refineOut sql
      ((QueryExecutor.execute_query engine now d1
        (QueryExecutor.register_dataframe now st sid df "sales_data") sid
        sql).1.error.getD "")) = Except.ok refined)
    (hs2 : (QueryExecutor.execute_query engine now d2
      (QueryExecutor.execute_query engine now d1
        (QueryExecutor.register_dataframe now st sid df "sales_data") sid
        sql).2.1 sid refined).1.success = true) :
    Main.execute_query genOut refineOut viz engine now d1 d2 st sid df =
      ⟨Except.ok ⟨true, some refined,
        (QueryExecutor.execute_query engine now d2
          (QueryExecutor.execute_query engine now d1
            (QueryExecutor.register_dataframe now st sid df "sales_data")
            sid sql).2.1 sid refined).1.result, none,
        viz refined ((QueryExecutor.execute_query engine now d2
          (QueryExecutor.execute_query engine now d1
            (QueryExecutor.register_dataframe now st sid df "sales_data")
            sid sql).2.1 sid refined).1.result.getD ⟨[], []⟩),
        (QueryExecutor.execute_query engine now d2
          (QueryExecutor.execute_query engine now d1
            (QueryExecutor.register_dataframe now st sid df "sales_data")
            sid sql).2.1 sid refined).1.time_ms⟩, 1, 2⟩ := by
  simp only [Main.execute_query, hg]
  rw [if_neg (by rw [hs]; exact Bool.false_ne_true)]
  simp only [hr]
  rw [if_pos hs2]

/-- The correction loop when both attempts fail: the refined attempt's
failure is returned, still after exactly one refinement. -/
theorem routeRefinedFailure (genOut : String)
    (refineOut : String → String → String) (viz : String → Df → String)
    (engine : Engine) (now d1 d2 : Nat) (st : QueryExecutor.ExecState)
    (sid : Nat) (df : Df) (sql refined : String)
    (hg : LLMAgent._clean_sql genOut = Except.ok sql)
    (hs : (QueryExecutor.execute_query engine now d1
      (QueryExecutor.register_dataframe now st sid df "sales_data") sid
      sql).1.success = false)
    (hr : LLMAgent._clean_sql (refineOut sql
      ((QueryExecutor.execute_query engine now d1
        (QueryExecutor.register_dataframe now st sid df "sales_data") sid
        sql).1.error.getD "")) = Except.ok refined)
    (hs2 : (QueryExecutor.execute_query engine now d2
      (QueryExecutor.execute_query engine now d1
        (QueryExecutor.register_dataframe now st sid df "sales_data") sid
        sql).2.1 sid refined).1.success = false) :
    Main.execute_query genOut refineOut viz engine now d1 d2 st sid df =
      ⟨Except.ok ⟨false, some refined, none,
        (QueryExecutor.execute_query engine now d2
          (QueryExecutor.execute_query engine now d1
            (QueryExecutor.register_dataframe now st sid df "sales_data")
            sid sql).2.1 sid refined).1.error, "table",
        (QueryExecutor.execute_query engine now d2
          (QueryExecutor.execute_query engine now d1
            (QueryExecutor.register_dataframe now st sid df "sales_data")
            sid sql).2.1 sid refined).1.time_ms⟩, 1, 2⟩ := by
  simp only [Main.execute_query, hg]
  rw [if_neg (by rw [hs]; exact Bool.false_ne_true)]
  simp only [hr]
  rw [if_neg (by rw [hs2]; exact Bool.false_ne_true)]

/-- Claim C4: in the correction loop, `refine_query` is invoked at most
once, it is invoked exactly once iff the first execution attempt failed
(given a generated SQL that passed validation), and every returned response
carries the SQL text executed last — the refined text whenever refinement
occurred (even if the second attempt also failed), otherwise the original
text. -/
theorem C4_single_refinement (genOut : String)
    (refineOut : String → String → String) (viz : String → Df → String)
    (engine : Engine) (now d1 d2 : Nat) (st : QueryExecutor.ExecState)
    (sid : Nat) (df : Df) :
    (Main.execute_query genOut refineOut viz engine now d1 d2 st sid
        df).refine_calls ≤ 1 ∧
    (∀ sql, LLMAgent._clean_sql genOut = Except.ok sql →
      ((Main.execute_query genOut refineOut viz engine now d1 d2 st sid
          df).refine_calls =
        if (QueryExecutor.execute_query engine now d1
            (QueryExecutor.register_dataframe now st sid df "sales_data")
            sid sql).1.success = true
        then 0 else 1) ∧
      (∀ resp, (Main.execute_query genOut refineOut viz engine now d1 d2 st
          sid df).outcome = Except.ok resp →
        if (QueryExecutor.execute_query engine now d1
            (QueryExecutor.register_dataframe now st sid df "sales_data")
            sid sql).1.success = true
        then resp.sql_query = some sql
        else ∃ refined,
          LLMAgent._clean_sql (refineOut sql
            ((QueryExecutor.execute_query engine now d1
              (QueryExecutor.register_dataframe now st sid df "sales_data")
              sid sql).1.error.getD "")) = Except.ok refined ∧
          resp.sql_query = some refined)) := by
  cases hg : LLMAgent._clean_sql genOut with
  | error e =>
    have he := routeGenError genOut refineOut viz engine now d1 d2 st sid df
      e hg
    constructor
    · rw [he]
      exact Nat.zero_le 1
    · intro sql hsql
      exact absurd hsql (by simp)
  | ok sql0 =>
    by_cases hs :
        (QueryExecutor.execute_query engine now d1
          (QueryExecutor.register_dataframe now st sid df "sales_data")
          sid sql0).1.success = true
    · have he := routeFirstSuccess genOut refineOut viz engine now d1 d2 st
        sid df sql0 hg hs
      constructor
      · rw [he]
        exact Nat.zero_le 1
      · intro sql hsql
        injection hsql with hq
        subst hq
        refine ⟨by rw [he, if_pos hs], ?_⟩
        intro resp hresp
        rw [he] at hresp
        injection hresp with hrr
        subst hrr
        rw [if_pos hs]
    · have hsf : (QueryExecutor.execute_query engine now d1
          (QueryExecutor.register_dataframe now st sid df "sales_data")
          sid sql0).1.success = false := by
        cases hx : (QueryExecutor.execute_query engine now d1
            (QueryExecutor.register_dataframe now st sid df "sales_data")
            sid sql0).1.success
        · rfl
        · exact absurd hx hs
      cases hr : LLMAgent._clean_sql (refineOut sql0
          ((QueryExecutor.execute_query engine now d1
            (QueryExecutor.register_dataframe now st sid df "sales_data")
            sid sql0).1.error.getD "")) with
      | error e2 =>
        have he := routeRefineError genOut refineOut viz engine now d1 d2 st
          sid df sql0 e2 hg hsf hr
        constructor
        · rw [he]
        · intro sql hsql
          injection hsql with hq
          subst hq
          refine ⟨by rw [he, if_neg hs], ?_⟩
          intro resp hresp
          rw [he] at hresp
          exact absurd hresp (by simp)
      | ok refined =>
        by_cases hs2 :
            (QueryExecutor.execute_query engine now d2
              (QueryExecutor.execute_query engine now d1
                (QueryExecutor.register_dataframe now st sid df
                  "sales_data") sid sql0).2.1 sid refined).1.success = true
        · have he := routeRefinedSuccess genOut refineOut viz engine now d1
            d2 st sid df sql0 refined hg hsf hr hs2
          constructor
          · rw [he]
          · intro sql hsql
            injection hsql with hq
            subst hq
            refine ⟨by rw [he, if_neg hs], ?_⟩
            intro resp hresp
            rw [he] at hresp
            injection hresp with hrr
            subst hrr
            rw [if_neg hs]
            exact ⟨refined, hr, rfl⟩
        · have hs2f : (QueryExecutor.execute_query engine now d2
              (QueryExecutor.execute_query engine now d1
                (QueryExecutor.register_dataframe now st sid df
                  "sales_data") sid sql0).2.1 sid
              refined).1.success = false := by
            cases hx : (QueryExecutor.execute_query engine now d2
                (QueryExecutor.execute_query engine now d1
                  (QueryExecutor.register_dataframe now st sid df
                    "sales_data") sid sql0).2.1 sid refined).1.success
            · rfl
            · exact absurd hx hs2
          have he := routeRefinedFailure genOut refineOut viz engine now d1
            d2 st sid df sql0 refined hg hsf hr hs2f
          constructor
          · rw [he]
          · intro sql hsql
            injection hsql with hq
            subst hq
            refine ⟨by rw [he, if_neg hs], ?_⟩
            intro resp hresp
            rw [he] at hresp
            injection hresp with hrr
            subst hrr
            rw [if_neg hs]
            exact ⟨refined, hr, rfl⟩

/-- Witness for C4: a failing first attempt followed by a successful
refined attempt performs exactly one refinement. -/
theorem C4_single_refinement_witness :
    (Main.execute_query "SELECT 1 FROM sales_data"
        (fun _ _ => "SELECT 2 FROM sales_data") (fun _ _ => "bar")
        retryEngine 0 1 2 QueryExecutor.initState 1 sampleDf).refine_calls =
      if (QueryExecutor.execute_query retryEngine 0 1
          (QueryExecutor.register_dataframe 0 QueryExecutor.initState 1
            sampleDf "sales_data") 1 "SELECT 1 FROM sales_data").1.success =
          true
      then 0 else 1 :=
  ((C4_single_refinement "SELECT 1 FROM sales_data"
      (fun _ _ => "SELECT 2 FROM sales_data") (fun _ _ => "bar")
      retryEngine 0 1 2 QueryExecutor.initState 1 sampleDf).2
    "SELECT 1 FROM sales_data" rfl).1

end TalkToData
